import Mathlib

/-!
Verification of the speech-to-speech translator application core.

This file shallowly embeds the request/response orchestration and
state-aggregation logic of the repository:

* `fetchModelStats` — the per-model incremental-mean aggregation from
  `src/pages/Index.tsx` (lines 98–132);
* `handleTranscriptionReceived` — the exchange-recording flow from
  `src/pages/Index.tsx` (lines 134–188), with persistence-call outcomes and
  the random generator passed in as explicit parameters and the database
  clock modelled as a monotone counter;
* `deleteConversation` / `handleNewConversation` — the history-deletion flow
  from `src/components/ConversationHistory.tsx` (lines 69–88) and
  `src/pages/Index.tsx` (lines 195–198);
* the `serve` handler and the three mock model backends from the edge
  function (`supabase/functions/speech-to-speech/index.ts`).

Numbers are modelled in exact arithmetic over `ℚ`; timestamps as `ℕ`.
-/

namespace SpeechApp

/-- A row of the `model_performance` table (migration SQL): `latency_ms` is
`NOT NULL`, the two scores are nullable `DECIMAL` columns, hence `Option ℚ`. -/
structure PerfRecord where
  user_id : String
  model_name : String
  language : String
  latency_ms : ℚ
  quality_score : Option ℚ
  expressivity_score : Option ℚ
deriving Repr, DecidableEq

/-- The derived `ModelStats` record of `Index.tsx` (lines 24–30). -/
structure ModelStats where
  model_name : String
  avg_latency : ℚ
  avg_quality : ℚ
  avg_expressivity : ℚ
  usage_count : ℕ
deriving Repr, DecidableEq

/-- One step of the `data?.forEach(record => ...)` loop of `fetchModelStats`
(`Index.tsx` lines 110–126).  The JS `Map` keyed by model name, iterated in
insertion order, is embedded as an association list of `ModelStats`: an
existing entry is updated in place (`acc.map`), a new model is appended at the
end (`statsMap.set`).  `record.quality_score || 0` is the JS null-coalescing of
the nullable column, embedded as `Option.getD 0` (a stored `0` is also mapped
to `0` by both). -/
def statsStep (acc : List ModelStats) (record : PerfRecord) : List ModelStats :=
  if acc.any (fun s => s.model_name == record.model_name) then
    acc.map (fun s =>
      if s.model_name == record.model_name then
        { s with
          avg_latency :=
            (s.avg_latency * s.usage_count + record.latency_ms) / (s.usage_count + 1)
          avg_quality :=
            (s.avg_quality * s.usage_count + record.quality_score.getD 0) /
              (s.usage_count + 1)
          avg_expressivity :=
            (s.avg_expressivity * s.usage_count + record.expressivity_score.getD 0) /
              (s.usage_count + 1)
          usage_count := s.usage_count + 1 }
      else s)
  else
    acc ++ [{ model_name := record.model_name
              avg_latency := record.latency_ms
              avg_quality := record.quality_score.getD 0
              avg_expressivity := record.expressivity_score.getD 0
              usage_count := 1 }]

/-- The aggregation body of `fetchModelStats` (`Index.tsx` lines 107–128):
fold the fetched records, in fetch order, into the stats map and return its
values in insertion order (`Array.from(statsMap.values())`). -/
def fetchModelStats (records : List PerfRecord) : List ModelStats :=
  records.foldl statsStep []

/-- Look up the stats entry of one model in an aggregation result
(`statsMap.get(...)` in the source). -/
def lookupStats (acc : List ModelStats) (m : String) : Option ModelStats :=
  acc.find? (fun s => s.model_name == m)

/-- Direct sum/count arithmetic-mean statistics for one model, the reference
computation the spec describes (`computeStats` via direct sum/count): filter
the records of model `m`, divide each component sum by the group size. -/
def directStats (records : List PerfRecord) (m : String) : Option ModelStats :=
  let g := records.filter (fun r => r.model_name == m)
  if g.length = 0 then none
  else some
    { model_name := m
      avg_latency := (g.map (fun r => r.latency_ms)).sum / g.length
      avg_quality := (g.map (fun r => r.quality_score.getD 0)).sum / g.length
      avg_expressivity := (g.map (fun r => r.expressivity_score.getD 0)).sum / g.length
      usage_count := g.length }

/-- The per-model update `statsStep` performs: seed a fresh entry from the
record when the model is new, otherwise fold the record into the existing
entry with the incremental-mean formula of `Index.tsx` lines 113–116. -/
def stepEntry (record : PerfRecord) : Option ModelStats → ModelStats
  | none =>
      { model_name := record.model_name
        avg_latency := record.latency_ms
        avg_quality := record.quality_score.getD 0
        avg_expressivity := record.expressivity_score.getD 0
        usage_count := 1 }
  | some s =>
      { s with
        avg_latency :=
          (s.avg_latency * s.usage_count + record.latency_ms) / (s.usage_count + 1)
        avg_quality :=
          (s.avg_quality * s.usage_count + record.quality_score.getD 0) /
            (s.usage_count + 1)
        avg_expressivity :=
          (s.avg_expressivity * s.usage_count + record.expressivity_score.getD 0) /
            (s.usage_count + 1)
        usage_count := s.usage_count + 1 }

theorem lookupStats_statsStep (acc : List ModelStats) (record : PerfRecord)
    (m : String) :
    lookupStats (statsStep acc record) m =
      if record.model_name = m then some (stepEntry record (lookupStats acc m))
      else lookupStats acc m := by
  unfold statsStep lookupStats
  cases hmem : acc.any (fun s => s.model_name == record.model_name) with
  | false =>
      simp only [Bool.false_eq_true, if_false, List.find?_append]
      rw [List.any_eq_false] at hmem
      by_cases hm : record.model_name = m
      · subst hm
        have hnone : acc.find? (fun s => s.model_name == record.model_name) = none := by
          rw [List.find?_eq_none]
          intro s hs
          exact hmem s hs
        rw [hnone]
        simp [stepEntry]
      · have hbeq : (record.model_name == m) = false := by
          simpa using hm
        have hsingle :
            List.find? (fun s => s.model_name == m)
              [({ model_name := record.model_name
                  avg_latency := record.latency_ms
                  avg_quality := record.quality_score.getD 0
                  avg_expressivity := record.expressivity_score.getD 0
                  usage_count := 1 } : ModelStats)] = none := by
          simp [List.find?, hbeq]
        rw [hsingle]
        simp [hm]
  | true =>
      simp only [if_true]
      rw [List.find?_map]
      have hpf :
          ((fun s : ModelStats => s.model_name == m) ∘ fun s =>
            if s.model_name == record.model_name then
              { s with
                avg_latency :=
                  (s.avg_latency * s.usage_count + record.latency_ms) /
                    (s.usage_count + 1)
                avg_quality :=
                  (s.avg_quality * s.usage_count + record.quality_score.getD 0) /
                    (s.usage_count + 1)
                avg_expressivity :=
                  (s.avg_expressivity * s.usage_count +
                      record.expressivity_score.getD 0) / (s.usage_count + 1)
                usage_count := s.usage_count + 1 }
            else s) = fun s : ModelStats => s.model_name == m := by
        funext s
        by_cases h : s.model_name = record.model_name <;> simp [Function.comp, h]
      rw [hpf]
      rw [List.any_eq_true] at hmem
      by_cases hm : record.model_name = m
      · subst hm
        obtain ⟨s₀, hs₀mem, hs₀⟩ := hmem
        have hsome : (acc.find? fun s => s.model_name == record.model_name).isSome := by
          rw [List.find?_isSome]
          exact ⟨s₀, hs₀mem, hs₀⟩
        obtain ⟨s₁, hs₁⟩ := Option.isSome_iff_exists.mp hsome
        have hp₁ : s₁.model_name = record.model_name := by
          simpa using List.find?_some hs₁
        rw [hs₁]
        simp [stepEntry, hp₁]
      · cases hfind : acc.find? (fun s => s.model_name == m) with
        | none => simp [hm]
        | some s₁ =>
            have hp₁ : s₁.model_name = m := by
              simpa using List.find?_some hfind
            have hne : ¬s₁.model_name = record.model_name := by
              intro hcontra
              exact hm (by rw [← hcontra]; exact hp₁)
            simp [hm, hne]

theorem fetchModelStats_append (l : List PerfRecord) (r : PerfRecord) :
    fetchModelStats (l ++ [r]) = statsStep (fetchModelStats l) r := by
  unfold fetchModelStats
  rw [List.foldl_append, List.foldl_cons, List.foldl_nil]

theorem lookupStats_fetchModelStats (records : List PerfRecord) (m : String) :
    lookupStats (fetchModelStats records) m = directStats records m := by
  induction records using List.reverseRecOn with
  | nil => simp [fetchModelStats, lookupStats, directStats]
  | append_singleton l r ih =>
      rw [fetchModelStats_append, lookupStats_statsStep, ih]
      unfold directStats
      by_cases hm : r.model_name = m
      · have hfil :
            (l ++ [r]).filter (fun rec => rec.model_name == m) =
              l.filter (fun rec => rec.model_name == m) ++ [r] := by
          rw [List.filter_append]
          simp [List.filter, hm]
        rw [hfil, if_pos hm]
        set g := l.filter (fun rec => rec.model_name == m) with hg
        by_cases hlen : g.length = 0
        · have hgnil : g = [] := List.length_eq_zero.mp hlen
          simp [hgnil, stepEntry, hm]
        · have hk : (g.length : ℚ) ≠ 0 := Nat.cast_ne_zero.mpr hlen
          simp only [hlen, if_false, List.length_append, List.length_cons,
            List.length_nil, Nat.add_zero, stepEntry]
          have hlen' : ¬(g.length + 1 = 0) := Nat.succ_ne_zero _
          rw [if_neg hlen']
          simp only [Option.some.injEq, ModelStats.mk.injEq, true_and, and_true]
          refine ⟨?_, ?_, ?_⟩ <;>
            · rw [div_mul_cancel₀ _ hk, List.map_append, List.sum_append]
              push_cast
              simp
      · have hbeq : (r.model_name == m) = false := by
          simpa using hm
        have hfil :
            (l ++ [r]).filter (fun rec => rec.model_name == m) =
              l.filter (fun rec => rec.model_name == m) := by
          rw [List.filter_append]
          simp [List.filter, hbeq]
        rw [hfil, if_neg hm]

theorem directStats_perm {l₁ l₂ : List PerfRecord} (h : l₁.Perm l₂) (m : String) :
    directStats l₁ m = directStats l₂ m := by
  unfold directStats
  dsimp only
  have hf := List.Perm.filter (fun rec => rec.model_name == m) h
  rw [hf.length_eq, (hf.map fun r => r.latency_ms).sum_eq,
    (hf.map fun r => r.quality_score.getD 0).sum_eq,
    (hf.map fun r => r.expressivity_score.getD 0).sum_eq]

/-- Record used by the C2 witness. -/
def permRecordA : PerfRecord :=
  { user_id := "owner", model_name := "moshi", language := "en"
    latency_ms := 120, quality_score := some 4, expressivity_score := some 3 }

/-- Second record used by the C2 witness. -/
def permRecordB : PerfRecord :=
  { user_id := "owner", model_name := "moshi", language := "ta"
    latency_ms := 80, quality_score := some 5, expressivity_score := some 2 }

end SpeechApp

/-- Claim C2: over exact arithmetic, the incremental-mean fold of `fetchModelStats`
computes, for every model, exactly the direct sum/count arithmetic mean of its
group, and consequently the per-model statistics are invariant under
permutation of the fetched records. -/
theorem SpeechApp.fetchModelStats_mean_and_order :
    (∀ (records : List SpeechApp.PerfRecord) (m : String),
        SpeechApp.lookupStats (SpeechApp.fetchModelStats records) m =
          SpeechApp.directStats records m) ∧
    (∀ (l₁ l₂ : List SpeechApp.PerfRecord), l₁.Perm l₂ → ∀ m : String,
        SpeechApp.lookupStats (SpeechApp.fetchModelStats l₁) m =
          SpeechApp.lookupStats (SpeechApp.fetchModelStats l₂) m) := by
  refine ⟨SpeechApp.lookupStats_fetchModelStats, ?_⟩
  intro l₁ l₂ hperm m
  rw [SpeechApp.lookupStats_fetchModelStats, SpeechApp.lookupStats_fetchModelStats]
  exact SpeechApp.directStats_perm hperm m

/-- Witness for C2: the per-model stats of two concrete records agree with the
stats of the swapped list. -/
theorem SpeechApp.fetchModelStats_mean_and_order_witness :
    SpeechApp.lookupStats
        (SpeechApp.fetchModelStats [SpeechApp.permRecordA, SpeechApp.permRecordB])
        "moshi" =
      SpeechApp.lookupStats
        (SpeechApp.fetchModelStats [SpeechApp.permRecordB, SpeechApp.permRecordA])
        "moshi" :=
  SpeechApp.fetchModelStats_mean_and_order.2 _ _
    (List.Perm.swap SpeechApp.permRecordB SpeechApp.permRecordA []) "moshi"

namespace SpeechApp

/-- First modelA record of the C1 test vector. -/
def c1RecordA : PerfRecord :=
  { user_id := "owner", model_name := "modelA", language := "en"
    latency_ms := 100, quality_score := some 4, expressivity_score := some 4 }

/-- Second modelA record of the C1 test vector. -/
def c1RecordB : PerfRecord :=
  { user_id := "owner", model_name := "modelA", language := "en"
    latency_ms := 200, quality_score := some 2, expressivity_score := some 2 }

end SpeechApp

/-- Claim C1: `fetchModelStats` over the two-record list
`[{modelA,100ms,4,4}, {modelA,200ms,2,2}]` of one owner returns exactly one
entry, for modelA, with avg_latency 150, avg_quality 3, avg_expressivity 3 and
usage_count 2. -/
theorem SpeechApp.fetchModelStats_spec_vector :
    SpeechApp.fetchModelStats [SpeechApp.c1RecordA, SpeechApp.c1RecordB] =
      [{ model_name := "modelA", avg_latency := 150, avg_quality := 3,
         avg_expressivity := 3, usage_count := 2 }] := by
  norm_num [fetchModelStats, statsStep, c1RecordA, c1RecordB]

namespace SpeechApp

/-- A row of the `messages` table as mirrored in the in-memory `Message` list
of `Index.tsx` (lines 14–22); `created_at` is the database-assigned creation
timestamp, modelled as a natural number drawn from a monotone clock. -/
structure Message where
  conversation_id : ℕ
  content : String
  transcript : Option String
  audio_url : Option String
  is_user : Bool
  latency_ms : Option ℚ
  created_at : ℕ
deriving Repr, DecidableEq

/-- The session state handled by `Index.tsx`: the active conversation id and
in-memory message list (React state), the persisted `model_performance` rows,
two flags recording what the most recent handler invocation did
(`statsRefreshed`: `fetchModelStats()` was triggered; `caughtError`: the
handler's catch block ran), the database clock and the next conversation id. -/
structure AppState where
  currentConversationId : Option ℕ
  messages : List Message
  perfRecords : List PerfRecord
  statsRefreshed : Bool
  caughtError : Bool
  now : ℕ
  nextConvId : ℕ
deriving Repr, DecidableEq

/-- The arguments of one `handleTranscriptionReceived` call together with the
component state it reads (`selectedModel`, `selectedLanguage`, `user.id`) and
the two `Math.random()` draws of the performance insert. -/
structure ExchangeInput where
  transcript : String
  audioUrl : String
  latency : ℚ
  selectedModel : String
  selectedLanguage : String
  userId : String
  randQuality : ℚ
  randExpressivity : ℚ
deriving Repr, DecidableEq

/-- Success/failure of each persistence round-trip performed by
`handleTranscriptionReceived`, passed in as an oracle: conversation insert,
user-message insert, AI-message insert, performance insert. -/
structure PersistOutcome where
  convOk : Bool
  userOk : Bool
  aiOk : Bool
  perfOk : Bool
deriving Repr, DecidableEq

/-- `Math.random() * 2 + 3`, the mock score generator of `Index.tsx`
lines 179–180, as a function of the random draw `r`. -/
def mockScore (r : ℚ) : ℚ := r * 2 + 3

/-- The user-message insert payload (`Index.tsx` lines 144–152), with the
database-assigned creation timestamp `t`. -/
def userMessageOf (cid : ℕ) (inp : ExchangeInput) (t : ℕ) : Message :=
  { conversation_id := cid
    content := inp.transcript
    transcript := some inp.transcript
    audio_url := none
    is_user := true
    latency_ms := some inp.latency
    created_at := t }

/-- The AI-message insert payload (`Index.tsx` lines 159–167). -/
def aiMessageOf (cid : ℕ) (inp : ExchangeInput) (t : ℕ) : Message :=
  { conversation_id := cid
    content := "AI response using " ++ inp.selectedModel
    transcript := none
    audio_url := some inp.audioUrl
    is_user := false
    latency_ms := some inp.latency
    created_at := t }

/-- The `model_performance` insert payload (`Index.tsx` lines 174–181): the
two scores are `Math.random() * 2 + 3`, submitted without any validation. -/
def perfRecordOf (inp : ExchangeInput) : PerfRecord :=
  { user_id := inp.userId
    model_name := inp.selectedModel
    language := inp.selectedLanguage
    latency_ms := inp.latency
    quality_score := some (mockScore inp.randQuality)
    expressivity_score := some (mockScore inp.randExpressivity) }

/-- The `try` block of `handleTranscriptionReceived` (`Index.tsx` lines
142–187), entered with the resolved conversation id `cid`: insert the user
message (throw on error), insert the AI message (throw on error), insert the
performance record with the result discarded (`await` without an error
check, so failure neither throws nor is inspected), then append both
messages to the in-memory list and trigger the stats refresh.  Each
database insert advances the clock by one. -/
def saveExchange (s1 : AppState) (cid : ℕ) (inp : ExchangeInput)
    (oc : PersistOutcome) : AppState :=
  if oc.userOk then
    let userMessage := userMessageOf cid inp s1.now
    let s2 := { s1 with now := s1.now + 1 }
    if oc.aiOk then
      let aiMessage := aiMessageOf cid inp s2.now
      let s3 := { s2 with now := s2.now + 1 }
      let s4 :=
        if oc.perfOk then
          { s3 with perfRecords := s3.perfRecords ++ [perfRecordOf inp]
                    now := s3.now + 1 }
        else { s3 with now := s3.now + 1 }
      { s4 with messages := s1.messages ++ [userMessage, aiMessage]
                statsRefreshed := true }
    else { s2 with caughtError := true }
  else { s1 with caughtError := true }

/-- `handleTranscriptionReceived` (`Index.tsx` lines 134–188): resolve the
conversation id — reuse the active one, otherwise `createNewConversation`
(which on success activates a fresh id and resets the in-memory message
list, and on failure returns with no further work) — then run the `try`
block.  The two outcome flags are reset on entry so that the resulting state
describes this invocation. -/
def handleTranscriptionReceived (s : AppState) (inp : ExchangeInput)
    (oc : PersistOutcome) : AppState :=
  let s0 := { s with caughtError := false, statsRefreshed := false }
  match s0.currentConversationId with
  | some cid => saveExchange s0 cid inp oc
  | none =>
      if oc.convOk then
        saveExchange
          { s0 with currentConversationId := some s0.nextConvId
                    messages := []
                    nextConvId := s0.nextConvId + 1
                    now := s0.now + 1 }
          s0.nextConvId inp oc
      else s0

end SpeechApp

namespace SpeechApp

/-- The `CHECK (score >= 0 AND score <= 5)` constraint of the
`model_performance` migration. -/
def scoreWithinBounds (q : ℚ) : Prop := 0 ≤ q ∧ q ≤ 5

/-- Both nullable score columns of a performance record satisfy the
migration's CHECK constraints. -/
def recordScoresOK (r : PerfRecord) : Prop :=
  (∀ q ∈ r.quality_score, scoreWithinBounds q) ∧
    (∀ e ∈ r.expressivity_score, scoreWithinBounds e)

theorem perfRecords_cases (s : AppState) (inp : ExchangeInput)
    (oc : PersistOutcome) :
    (handleTranscriptionReceived s inp oc).perfRecords = s.perfRecords ∨
      (handleTranscriptionReceived s inp oc).perfRecords =
        s.perfRecords ++ [perfRecordOf inp] := by
  unfold handleTranscriptionReceived saveExchange
  cases s.currentConversationId <;>
    by_cases hc : oc.convOk <;> by_cases hu : oc.userOk <;>
    by_cases ha : oc.aiOk <;> by_cases hp : oc.perfOk <;>
    simp [hc, hu, ha, hp]

end SpeechApp

/-- Claim C4: when the active conversation is set and both message inserts succeed,
the in-memory message list grows by exactly the appended pair — first the
user message (`is_user = true`), then the assistant message
(`is_user = false`) — and, provided every prior entry's creation timestamp is
bounded by the clock, both new timestamps are not earlier than every prior
entry's. -/
theorem SpeechApp.exchange_appends_user_then_ai (s : SpeechApp.AppState)
    (inp : SpeechApp.ExchangeInput) (oc : SpeechApp.PersistOutcome) (cid : ℕ)
    (hcid : s.currentConversationId = some cid)
    (huser : oc.userOk = true) (hai : oc.aiOk = true)
    (hts : ∀ msg ∈ s.messages, msg.created_at ≤ s.now) :
    ∃ u a : SpeechApp.Message,
      (SpeechApp.handleTranscriptionReceived s inp oc).messages =
          s.messages ++ [u, a] ∧
        (SpeechApp.handleTranscriptionReceived s inp oc).messages.length =
          s.messages.length + 2 ∧
        u.is_user = true ∧ a.is_user = false ∧ u.created_at ≤ a.created_at ∧
        ∀ msg ∈ s.messages,
          msg.created_at ≤ u.created_at ∧ msg.created_at ≤ a.created_at := by
  refine ⟨SpeechApp.userMessageOf cid inp s.now,
    SpeechApp.aiMessageOf cid inp (s.now + 1), ?_, ?_, rfl, rfl, ?_, ?_⟩
  · unfold SpeechApp.handleTranscriptionReceived SpeechApp.saveExchange
    by_cases hp : oc.perfOk <;> simp [hcid, huser, hai, hp]
  · unfold SpeechApp.handleTranscriptionReceived SpeechApp.saveExchange
    by_cases hp : oc.perfOk <;> simp [hcid, huser, hai, hp]
  · exact Nat.le_succ _
  · intro msg hmsg
    exact ⟨hts msg hmsg, Nat.le_trans (hts msg hmsg) (Nat.le_succ _)⟩

/-- Witness for C4. -/
theorem SpeechApp.exchange_appends_user_then_ai_witness :
    ∃ u a : SpeechApp.Message,
      (SpeechApp.handleTranscriptionReceived
            { currentConversationId := some 1, messages := [],
              perfRecords := [], statsRefreshed := false, caughtError := false,
              now := 5, nextConvId := 2 }
            { transcript := "hello", audioUrl := "url", latency := 300,
              selectedModel := "moshi", selectedLanguage := "en",
              userId := "owner", randQuality := 0, randExpressivity := 0 }
            { convOk := true, userOk := true, aiOk := true,
              perfOk := true }).messages = [] ++ [u, a] ∧
        (SpeechApp.handleTranscriptionReceived
            { currentConversationId := some 1, messages := [],
              perfRecords := [], statsRefreshed := false, caughtError := false,
              now := 5, nextConvId := 2 }
            { transcript := "hello", audioUrl := "url", latency := 300,
              selectedModel := "moshi", selectedLanguage := "en",
              userId := "owner", randQuality := 0, randExpressivity := 0 }
            { convOk := true, userOk := true, aiOk := true,
              perfOk := true }).messages.length = List.length ([] : List SpeechApp.Message) + 2 ∧
        u.is_user = true ∧ a.is_user = false ∧ u.created_at ≤ a.created_at ∧
        ∀ msg ∈ ([] : List SpeechApp.Message),
          msg.created_at ≤ u.created_at ∧ msg.created_at ≤ a.created_at :=
  SpeechApp.exchange_appends_user_then_ai _ _ _ 1 rfl rfl rfl
    (by intro msg hmsg; cases hmsg)

/-- Claim C9: when both message inserts succeed and the performance insert fails,
the exchange still completes — the message pair is appended, the stats
refresh is triggered, no error is caught — and the set of persisted
performance rows is unchanged (the insert's result is discarded). -/
theorem SpeechApp.perf_insert_result_discarded (s : SpeechApp.AppState)
    (inp : SpeechApp.ExchangeInput) (oc : SpeechApp.PersistOutcome) (cid : ℕ)
    (hcid : s.currentConversationId = some cid)
    (huser : oc.userOk = true) (hai : oc.aiOk = true)
    (hperf : oc.perfOk = false) :
    (SpeechApp.handleTranscriptionReceived s inp oc).messages.length =
        s.messages.length + 2 ∧
      (SpeechApp.handleTranscriptionReceived s inp oc).statsRefreshed = true ∧
      (SpeechApp.handleTranscriptionReceived s inp oc).caughtError = false ∧
      (SpeechApp.handleTranscriptionReceived s inp oc).perfRecords =
        s.perfRecords := by
  unfold SpeechApp.handleTranscriptionReceived SpeechApp.saveExchange
  simp [hcid, huser, hai, hperf]

/-- Witness for C9. -/
theorem SpeechApp.perf_insert_result_discarded_witness :
    (SpeechApp.handleTranscriptionReceived
          { currentConversationId := some 1, messages := [], perfRecords := [],
            statsRefreshed := false, caughtError := false, now := 5,
            nextConvId := 2 }
          { transcript := "hello", audioUrl := "url", latency := 300,
            selectedModel := "moshi", selectedLanguage := "en",
            userId := "owner", randQuality := 0, randExpressivity := 0 }
          { convOk := true, userOk := true, aiOk := true,
            perfOk := false }).messages.length = List.length ([] : List SpeechApp.Message) + 2 ∧
      (SpeechApp.handleTranscriptionReceived
          { currentConversationId := some 1, messages := [], perfRecords := [],
            statsRefreshed := false, caughtError := false, now := 5,
            nextConvId := 2 }
          { transcript := "hello", audioUrl := "url", latency := 300,
            selectedModel := "moshi", selectedLanguage := "en",
            userId := "owner", randQuality := 0, randExpressivity := 0 }
          { convOk := true, userOk := true, aiOk := true,
            perfOk := false }).statsRefreshed = true ∧
      (SpeechApp.handleTranscriptionReceived
          { currentConversationId := some 1, messages := [], perfRecords := [],
            statsRefreshed := false, caughtError := false, now := 5,
            nextConvId := 2 }
          { transcript := "hello", audioUrl := "url", latency := 300,
            selectedModel := "moshi", selectedLanguage := "en",
            userId := "owner", randQuality := 0, randExpressivity := 0 }
          { convOk := true, userOk := true, aiOk := true,
            perfOk := false }).caughtError = false ∧
      (SpeechApp.handleTranscriptionReceived
          { currentConversationId := some 1, messages := [], perfRecords := [],
            statsRefreshed := false, caughtError := false, now := 5,
            nextConvId := 2 }
          { transcript := "hello", audioUrl := "url", latency := 300,
            selectedModel := "moshi", selectedLanguage := "en",
            userId := "owner", randQuality := 0, randExpressivity := 0 }
          { convOk := true, userOk := true, aiOk := true,
            perfOk := false }).perfRecords = [] :=
  SpeechApp.perf_insert_result_discarded _ _ _ 1 rfl rfl rfl rfl

namespace SpeechApp

/-- Concrete session state used for the score counterexamples and witnesses. -/
def baseState : AppState :=
  { currentConversationId := some 1, messages := [], perfRecords := []
    statsRefreshed := false, caughtError := false, now := 10, nextConvId := 2 }

/-- Exchange input whose random draw `2` makes the generated quality score
`2 * 2 + 3 = 7`, outside the `[0,5]` bound. -/
def outOfRangeInput : ExchangeInput :=
  { transcript := "hi", audioUrl := "url", latency := 250
    selectedModel := "moshi", selectedLanguage := "en", userId := "owner"
    randQuality := 2, randExpressivity := 0 }

/-- All four persistence calls succeed. -/
def allOk : PersistOutcome :=
  { convOk := true, userOk := true, aiOk := true, perfOk := true }

end SpeechApp

/-- Counterexample for C3: the application logic performs no score validation.
For a random draw of `2` the generated quality score is `7`, outside `[0,5]`,
yet the performance record is submitted and persisted, the handler catches no
error and the stats refresh runs — no `InvalidScore` failure occurs. -/
theorem SpeechApp.scores_not_validated_counterexample :
    SpeechApp.mockScore 2 = 7 ∧
      ¬SpeechApp.scoreWithinBounds (SpeechApp.mockScore 2) ∧
      (SpeechApp.handleTranscriptionReceived SpeechApp.baseState
            SpeechApp.outOfRangeInput SpeechApp.allOk).perfRecords =
        [{ user_id := "owner", model_name := "moshi", language := "en",
           latency_ms := 250, quality_score := some 7,
           expressivity_score := some 3 }] ∧
      (SpeechApp.handleTranscriptionReceived SpeechApp.baseState
          SpeechApp.outOfRangeInput SpeechApp.allOk).caughtError = false ∧
      (SpeechApp.handleTranscriptionReceived SpeechApp.baseState
          SpeechApp.outOfRangeInput SpeechApp.allOk).statsRefreshed = true := by
  refine ⟨by norm_num [SpeechApp.mockScore], ?_, ?_, ?_, ?_⟩
  · intro h
    have := h.2
    norm_num [SpeechApp.mockScore] at this
  · norm_num [SpeechApp.handleTranscriptionReceived, SpeechApp.saveExchange,
      SpeechApp.baseState, SpeechApp.outOfRangeInput, SpeechApp.allOk,
      SpeechApp.perfRecordOf, SpeechApp.mockScore]
  · norm_num [SpeechApp.handleTranscriptionReceived, SpeechApp.saveExchange,
      SpeechApp.baseState, SpeechApp.outOfRangeInput, SpeechApp.allOk]
  · norm_num [SpeechApp.handleTranscriptionReceived, SpeechApp.saveExchange,
      SpeechApp.baseState, SpeechApp.outOfRangeInput, SpeechApp.allOk]

/-- Claim C3 as amended: the performance-record append performs no clamping or
validation of the scores.  For every random draw — hence every score value
`r * 2 + 3`, in range or not — the record is submitted unchanged and
persisted when the database accepts it, and the handler never fails with any
error condition for it: the `[0,5]` bound is enforced only by the database
CHECK constraint, not in application logic. -/
theorem SpeechApp.scores_persisted_without_validation (s : SpeechApp.AppState)
    (inp : SpeechApp.ExchangeInput) (oc : SpeechApp.PersistOutcome) (cid : ℕ)
    (hcid : s.currentConversationId = some cid)
    (huser : oc.userOk = true) (hai : oc.aiOk = true)
    (hperf : oc.perfOk = true) :
    (SpeechApp.handleTranscriptionReceived s inp oc).caughtError = false ∧
      (SpeechApp.handleTranscriptionReceived s inp oc).perfRecords =
        s.perfRecords ++ [SpeechApp.perfRecordOf inp] ∧
      (SpeechApp.perfRecordOf inp).quality_score =
        some (SpeechApp.mockScore inp.randQuality) := by
  unfold SpeechApp.handleTranscriptionReceived SpeechApp.saveExchange
  simp [hcid, huser, hai, hperf, SpeechApp.perfRecordOf]

/-- Witness for the amended C3: the out-of-range score 7 is persisted without any
failure. -/
theorem SpeechApp.scores_persisted_without_validation_witness :
    (SpeechApp.handleTranscriptionReceived SpeechApp.baseState
        SpeechApp.outOfRangeInput SpeechApp.allOk).caughtError = false ∧
      (SpeechApp.handleTranscriptionReceived SpeechApp.baseState
          SpeechApp.outOfRangeInput SpeechApp.allOk).perfRecords =
        [] ++ [SpeechApp.perfRecordOf SpeechApp.outOfRangeInput] ∧
      (SpeechApp.perfRecordOf SpeechApp.outOfRangeInput).quality_score =
        some (SpeechApp.mockScore SpeechApp.outOfRangeInput.randQuality) :=
  SpeechApp.scores_persisted_without_validation _ _ _ 1 rfl rfl rfl rfl

/-- Claim C10: for every random draw `r` in `[0,1)` the generated score
`r * 2 + 3` lies in `[3,5)` and hence satisfies the database's `[0,5]` CHECK
bound, and consequently each performance record the exchange handler
persists — given in-range draws and a previously conforming store — keeps
every stored record within bounds. -/
theorem SpeechApp.mock_scores_within_bounds (r : ℚ) (s : SpeechApp.AppState)
    (inp : SpeechApp.ExchangeInput) (oc : SpeechApp.PersistOutcome)
    (hr0 : 0 ≤ r) (hr1 : r < 1)
    (hq0 : 0 ≤ inp.randQuality) (hq1 : inp.randQuality < 1)
    (he0 : 0 ≤ inp.randExpressivity) (he1 : inp.randExpressivity < 1)
    (hprev : ∀ rec ∈ s.perfRecords, SpeechApp.recordScoresOK rec) :
    (3 ≤ SpeechApp.mockScore r ∧ SpeechApp.mockScore r < 5) ∧
      SpeechApp.scoreWithinBounds (SpeechApp.mockScore r) ∧
      ∀ rec ∈ (SpeechApp.handleTranscriptionReceived s inp oc).perfRecords,
        SpeechApp.recordScoresOK rec := by
  have hrange : ∀ x : ℚ, 0 ≤ x → x < 1 →
      3 ≤ SpeechApp.mockScore x ∧ SpeechApp.mockScore x < 5 := by
    intro x hx0 hx1
    unfold SpeechApp.mockScore
    constructor <;> nlinarith
  have hbounds : ∀ x : ℚ, 0 ≤ x → x < 1 →
      SpeechApp.scoreWithinBounds (SpeechApp.mockScore x) := by
    intro x hx0 hx1
    obtain ⟨h3, h5⟩ := hrange x hx0 hx1
    exact ⟨le_trans (by norm_num) h3, le_of_lt h5⟩
  refine ⟨hrange r hr0 hr1, hbounds r hr0 hr1, ?_⟩
  intro rec hrec
  rcases SpeechApp.perfRecords_cases s inp oc with hcase | hcase
  · exact hprev rec (hcase ▸ hrec)
  · rw [hcase, List.mem_append] at hrec
    rcases hrec with hrec | hrec
    · exact hprev rec hrec
    · rw [List.mem_singleton] at hrec
      subst hrec
      refine ⟨?_, ?_⟩
      · intro q hq
        rw [SpeechApp.perfRecordOf] at hq
        simp only [Option.mem_def, Option.some.injEq] at hq
        subst hq
        exact hbounds _ hq0 hq1
      · intro e he
        rw [SpeechApp.perfRecordOf] at he
        simp only [Option.mem_def, Option.some.injEq] at he
        subst he
        exact hbounds _ he0 he1

/-- Witness for C10: with draws `1/2` both generated scores are `4`, within
bounds, and the persisted store stays conforming. -/
theorem SpeechApp.mock_scores_within_bounds_witness :
    (3 ≤ SpeechApp.mockScore (1/2) ∧ SpeechApp.mockScore (1/2) < 5) ∧
      SpeechApp.scoreWithinBounds (SpeechApp.mockScore (1/2)) ∧
      ∀ rec ∈ (SpeechApp.handleTranscriptionReceived SpeechApp.baseState
          { transcript := "hi", audioUrl := "url", latency := 250,
            selectedModel := "moshi", selectedLanguage := "en",
            userId := "owner", randQuality := 1/2,
            randExpressivity := 1/2 } SpeechApp.allOk).perfRecords,
        SpeechApp.recordScoresOK rec :=
  SpeechApp.mock_scores_within_bounds (1/2) SpeechApp.baseState _ _
    (by norm_num) (by norm_num) (by norm_num) (by norm_num) (by norm_num)
    (by norm_num)
    (by intro rec hrec; simp [SpeechApp.baseState] at hrec)

namespace SpeechApp

/-- The state the history-deletion flow touches: the conversation list held
by `ConversationHistory`, plus the active conversation id and in-memory
message list of `Index.tsx` (reached through the `onNewConversation`
callback). -/
structure SessionState where
  conversations : List ℕ
  currentConversationId : Option ℕ
  messages : List Message
deriving Repr, DecidableEq

/-- `handleNewConversation` (`Index.tsx` lines 195–198): clear the active
conversation id and the in-memory message list. -/
def handleNewConversation (s : SessionState) : SessionState :=
  { s with currentConversationId := none, messages := [] }

/-- `deleteConversation` (`ConversationHistory.tsx` lines 69–88), with the
database delete's outcome passed as `delOk`.  On failure the error is caught
and logged, with no state change.  On success the conversation is filtered
out of the local list, and iff the deleted id equals the selected (active)
conversation the `onNewConversation` callback — `handleNewConversation` —
runs. -/
def deleteConversation (s : SessionState) (conversationId : ℕ)
    (delOk : Bool) : SessionState :=
  if delOk then
    let s1 :=
      { s with conversations :=
          s.conversations.filter (fun c => decide (c ≠ conversationId)) }
    if s1.currentConversationId = some conversationId then
      handleNewConversation s1
    else s1
  else s

end SpeechApp

/-- Claim C8: a successful delete of the active conversation leaves no active
conversation id and an empty in-memory message list; a successful delete of
a non-active conversation leaves the active id and the message list
unchanged. -/
theorem SpeechApp.delete_conversation_state (s : SpeechApp.SessionState)
    (conversationId : ℕ) :
    (s.currentConversationId = some conversationId →
        (SpeechApp.deleteConversation s conversationId
              true).currentConversationId = none ∧
          (SpeechApp.deleteConversation s conversationId true).messages = []) ∧
      (s.currentConversationId ≠ some conversationId →
        (SpeechApp.deleteConversation s conversationId
              true).currentConversationId = s.currentConversationId ∧
          (SpeechApp.deleteConversation s conversationId true).messages =
            s.messages) := by
  constructor
  · intro hact
    unfold SpeechApp.deleteConversation SpeechApp.handleNewConversation
    simp [hact]
  · intro hact
    unfold SpeechApp.deleteConversation SpeechApp.handleNewConversation
    simp [hact]

/-- Witness for C8: deleting conversation 1 while it is active clears the state;
deleting conversation 2 while 1 is active changes neither the active id nor
the messages. -/
theorem SpeechApp.delete_conversation_state_witness :
    ((SpeechApp.deleteConversation
          { conversations := [1, 2], currentConversationId := some 1,
            messages := [SpeechApp.userMessageOf 1
              SpeechApp.outOfRangeInput 0] }
          1 true).currentConversationId = none ∧
        (SpeechApp.deleteConversation
          { conversations := [1, 2], currentConversationId := some 1,
            messages := [SpeechApp.userMessageOf 1
              SpeechApp.outOfRangeInput 0] }
          1 true).messages = []) ∧
      ((SpeechApp.deleteConversation
          { conversations := [1, 2], currentConversationId := some 1,
            messages := [SpeechApp.userMessageOf 1
              SpeechApp.outOfRangeInput 0] }
          2 true).currentConversationId = some 1 ∧
        (SpeechApp.deleteConversation
          { conversations := [1, 2], currentConversationId := some 1,
            messages := [SpeechApp.userMessageOf 1
              SpeechApp.outOfRangeInput 0] }
          2 true).messages =
          [SpeechApp.userMessageOf 1 SpeechApp.outOfRangeInput 0]) :=
  ⟨(SpeechApp.delete_conversation_state _ 1).1 rfl,
    (SpeechApp.delete_conversation_state _ 2).2 (by decide)⟩

namespace SpeechApp

/-- The three model-processing backends of the edge function. -/
inductive Backend
  | moshi
  | ultravox
  | spirit_lm
deriving Repr, DecidableEq

/-- The multipart form fields of one request to the `speech-to-speech`
function: `audio` (a file), `model` and `language` (strings); `none` means
the field is absent from the form data (`formData.get` returns `null`). -/
structure SpeechFormData where
  audio : Option String
  model : Option String
  language : Option String
deriving Repr, DecidableEq

/-- JS falsiness of a nullable string form field: `null` and the empty
string are both falsy, so `!model` and `!language` reject either. -/
def jsFalsyStr : Option String → Bool
  | none => true
  | some s => s == ""

/-- The JSON body of the handler's `Response`, together with the HTTP
status and the trace of which model backends were invoked. -/
structure HandlerResponse where
  status : ℕ
  success : Bool
  errorMsg : Option String
  transcript : Option String
  audioUrl : Option String
  latency : Option ℕ
  invoked : List Backend
deriving Repr, DecidableEq

/-- `generateMockAudioUrl` of the edge function (lines 155–160). -/
def generateMockAudioUrl (model language : String) (timestamp : ℕ) : String :=
  "https://mock-audio-storage.com/" ++ model ++ "/" ++ language ++ "/" ++
    toString timestamp ++ ".wav"

/-- The English entry of the Moshi greetings table. -/
def moshiEn : String :=
  "Hello! I heard you speaking. This is Moshi responding with full-duplex conversation capability."

/-- The `greetings` dictionary of `processMoshiModel`:
`some` for the five listed language codes, `none` (JS `undefined`)
otherwise. -/
def moshiGreeting (language : String) : Option String :=
  if language = "en" then some moshiEn
  else if language = "ta" then
    some "வணக்கம்! நீங்கள் பேசுவதை நான் கேட்டேன். இது மோஷி முழு-டுப்ளெக்ஸ் உரையாடல் திறனுடன் பதிலளிக்கிறது."
  else if language = "es" then
    some "¡Hola! Te escuché hablar. Este es Moshi respondiendo con capacidad de conversación full-duplex."
  else if language = "fr" then
    some "Bonjour! Je vous ai entendu parler. Voici Moshi répondant avec une capacité de conversation full-duplex."
  else if language = "de" then
    some "Hallo! Ich habe Sie sprechen hören. Das ist Moshi, der mit Full-Duplex-Gesprächsfähigkeit antwortet."
  else none

/-- The English entry of the Ultravox responses table. -/
def ultravoxEn : String :=
  "Ultravox here! As a speech-extended language model, I can understand and respond to your speech with enhanced linguistic capabilities."

/-- The `responses` dictionary of `processUltravoxModel`. -/
def ultravoxResponse (language : String) : Option String :=
  if language = "en" then some ultravoxEn
  else if language = "ta" then
    some "அல்ட்ராவோக்ஸ் இங்கே! ஒரு பேச்சு-விரிவாக்கப்பட்ட மொழி மாதிரியாக, மேம்பட்ட மொழியியல் திறன்களுடன் உங்கள் பேச்சை புரிந்துகொண்டு பதிலளிக்க முடியும்."
  else if language = "es" then
    some "¡Ultravox aquí! Como modelo de lenguaje extendido por voz, puedo entender y responder a tu habla con capacidades lingüísticas mejoradas."
  else if language = "fr" then
    some "Ultravox ici! En tant que modèle de langage étendu par la parole, je peux comprendre et répondre à votre parole avec des capacités linguistiques améliorées."
  else if language = "de" then
    some "Ultravox hier! Als spracherweiterte Sprachmodell kann ich Ihre Sprache verstehen und mit erweiterten sprachlichen Fähigkeiten antworten."
  else none

/-- The English entry of the Spirit LM responses table. -/
def spiritLMEn : String :=
  "Spirit LM speaking! I specialize in expressive speech-text fusion, bringing emotion and nuance to our conversation."

/-- The `responses` dictionary of `processSpiritLMModel`. -/
def spiritLMResponse (language : String) : Option String :=
  if language = "en" then some spiritLMEn
  else if language = "ta" then
    some "ஸ்பிரிட் எல்எம் பேசுகிறது! வெளிப்பாடு நிறைந்த பேச்சு-உரை இணைப்பில் நான் நிபுணத்துவம் பெற்றுள்ளேன், உணர்ச்சி மற்றும் நுணுக்கத்தை உங்கள் உரையாடலுக்கு கொண்டு வருகிறேன்."
  else if language = "es" then
    some "¡Spirit LM hablando! Me especializo en la fusión expresiva de habla y texto, aportando emoción y matices a nuestra conversación."
  else if language = "fr" then
    some "Spirit LM parle! Je me spécialise dans la fusion expressive parole-texte, apportant émotion et nuance à notre conversation."
  else if language = "de" then
    some "Spirit LM spricht! Ich spezialisiere mich auf ausdrucksstarke Sprach-Text-Fusion und bringe Emotion und Nuancen in unser Gespräch."
  else none

/-- `processMoshiModel` (edge function lines 95–113): returns the greeting
for the requested language, falling back to the English one
(`greetings[language] || greetings['en']`, and no table entry is the empty
string), plus a mock audio URL.  The simulated delay only affects timing. -/
def processMoshiModel (audioBase64 : String) (language : String)
    (timestamp : ℕ) : String × String :=
  ((moshiGreeting language).getD moshiEn,
    generateMockAudioUrl "moshi" language timestamp)

/-- `processUltravoxModel` (edge function lines 115–133). -/
def processUltravoxModel (audioBase64 : String) (language : String)
    (timestamp : ℕ) : String × String :=
  ((ultravoxResponse language).getD ultravoxEn,
    generateMockAudioUrl "ultravox" language timestamp)

/-- `processSpiritLMModel` (edge function lines 135–153). -/
def processSpiritLMModel (audioBase64 : String) (language : String)
    (timestamp : ℕ) : String × String :=
  ((spiritLMResponse language).getD spiritLMEn,
    generateMockAudioUrl "spirit_lm" language timestamp)

/-- The `serve` handler of the edge function (lines 14–92), for non-OPTIONS
requests: reject when `audio` is absent or `model`/`language` are absent or
empty (`!audioBlob || !model || !language` throws, caught as an HTTP 500
error response); then dispatch on the model name, invoking exactly one
backend for the three known names and throwing `Unsupported model: ...` for
any other; a thrown error reaches the catch block, which returns HTTP 500
with `success: false` and the error message.  `processingTime` is the
measured `Date.now()` difference, `timestamp` the one used in the mock audio
URL. -/
def serveSpeechToSpeech (req : SpeechFormData) (processingTime : ℕ)
    (timestamp : ℕ) : HandlerResponse :=
  if req.audio.isNone || jsFalsyStr req.model || jsFalsyStr req.language then
    { status := 500, success := false
      errorMsg := some "Missing required parameters: audio, model, or language"
      transcript := none, audioUrl := none, latency := none, invoked := [] }
  else
    let audioBase64 := req.audio.getD ""
    let model := req.model.getD ""
    let language := req.language.getD ""
    if model = "moshi" then
      let r := processMoshiModel audioBase64 language timestamp
      { status := 200, success := true, errorMsg := none
        transcript := some r.1, audioUrl := some r.2
        latency := some processingTime, invoked := [Backend.moshi] }
    else if model = "ultravox" then
      let r := processUltravoxModel audioBase64 language timestamp
      { status := 200, success := true, errorMsg := none
        transcript := some r.1, audioUrl := some r.2
        latency := some processingTime, invoked := [Backend.ultravox] }
    else if model = "spirit_lm" then
      let r := processSpiritLMModel audioBase64 language timestamp
      { status := 200, success := true, errorMsg := none
        transcript := some r.1, audioUrl := some r.2
        latency := some processingTime, invoked := [Backend.spirit_lm] }
    else
      { status := 500, success := false
        errorMsg := some ("Unsupported model: " ++ model)
        transcript := none, audioUrl := none, latency := none, invoked := [] }

theorem generateMockAudioUrl_ne_empty (model language : String)
    (timestamp : ℕ) : generateMockAudioUrl model language timestamp ≠ "" := by
  intro h
  have hlen := congrArg String.length h
  rw [generateMockAudioUrl] at hlen
  simp only [String.length_append] at hlen
  have hslash : ("/" : String).length = 1 := by decide
  have hempty : ("" : String).length = 0 := by decide
  rw [hslash, hempty] at hlen
  omega

end SpeechApp

/-- Claim C6: whenever any of the three fields audio, model or language is
absent from the form data, the endpoint responds HTTP 500 with
`success: false` and the missing-parameter error message, and invokes none
of the three model backends. -/
theorem SpeechApp.missing_parameter_rejected (req : SpeechApp.SpeechFormData)
    (processingTime timestamp : ℕ)
    (h : req.audio = none ∨ req.model = none ∨ req.language = none) :
    (SpeechApp.serveSpeechToSpeech req processingTime timestamp).status = 500 ∧
      (SpeechApp.serveSpeechToSpeech req processingTime timestamp).success =
        false ∧
      (SpeechApp.serveSpeechToSpeech req processingTime timestamp).errorMsg =
        some "Missing required parameters: audio, model, or language" ∧
      (SpeechApp.serveSpeechToSpeech req processingTime timestamp).invoked =
        [] := by
  have hcond : (req.audio.isNone || SpeechApp.jsFalsyStr req.model ||
      SpeechApp.jsFalsyStr req.language) = true := by
    rcases h with h | h | h <;> simp [h, SpeechApp.jsFalsyStr]
  simp [SpeechApp.serveSpeechToSpeech, hcond]

/-- Witness for C6: a request without an audio field is rejected before any
backend runs. -/
theorem SpeechApp.missing_parameter_rejected_witness :
    (SpeechApp.serveSpeechToSpeech
        { audio := none, model := some "moshi", language := some "en" } 7
        3).status = 500 ∧
      (SpeechApp.serveSpeechToSpeech
          { audio := none, model := some "moshi", language := some "en" } 7
          3).success = false ∧
      (SpeechApp.serveSpeechToSpeech
          { audio := none, model := some "moshi", language := some "en" } 7
          3).errorMsg =
        some "Missing required parameters: audio, model, or language" ∧
      (SpeechApp.serveSpeechToSpeech
          { audio := none, model := some "moshi", language := some "en" } 7
          3).invoked = [] :=
  SpeechApp.missing_parameter_rejected _ 7 3 (Or.inl rfl)

/-- Counterexample for C5: the empty string is a model name outside
{moshi, ultravox, spirit_lm}, yet the endpoint rejects it with the
missing-parameter message — the JS falsiness check `!model` fires first —
not with the `Unsupported model:` condition the claim names (the response is
still `success: false` with no backend invoked). -/
theorem SpeechApp.empty_model_name_counterexample :
    ("" ∉ ["moshi", "ultravox", "spirit_lm"]) ∧
      (SpeechApp.serveSpeechToSpeech
          { audio := some "audio", model := some "", language := some "en" } 7
          3).success = false ∧
      (SpeechApp.serveSpeechToSpeech
          { audio := some "audio", model := some "", language := some "en" } 7
          3).invoked = [] ∧
      (SpeechApp.serveSpeechToSpeech
          { audio := some "audio", model := some "", language := some "en" } 7
          3).errorMsg =
        some "Missing required parameters: audio, model, or language" ∧
      (SpeechApp.serveSpeechToSpeech
          { audio := some "audio", model := some "", language := some "en" } 7
          3).errorMsg ≠ some ("Unsupported model: " ++ "") := by
  decide

/-- Claim C5 as amended: for every nonempty model name outside the
enumerated set (with the audio field present and the language field present
and non-empty), the endpoint fails with the `Unsupported model:` error,
HTTP 500 and `success: false`, invoking no backend; the empty-string model
name is instead caught by the missing-parameter check, likewise with
`success: false` and no backend invocation. -/
theorem SpeechApp.unsupported_model_rejected (req : SpeechApp.SpeechFormData)
    (processingTime timestamp : ℕ) (m : String)
    (haudio : req.audio.isSome = true) (hmodel : req.model = some m)
    (hlang : SpeechApp.jsFalsyStr req.language = false)
    (hnot : m ∉ ["moshi", "ultravox", "spirit_lm"]) :
    (SpeechApp.serveSpeechToSpeech req processingTime timestamp).success =
        false ∧
      (SpeechApp.serveSpeechToSpeech req processingTime timestamp).status =
        500 ∧
      (SpeechApp.serveSpeechToSpeech req processingTime timestamp).invoked =
        [] ∧
      (m ≠ "" →
        (SpeechApp.serveSpeechToSpeech req processingTime timestamp).errorMsg =
          some ("Unsupported model: " ++ m)) ∧
      (m = "" →
        (SpeechApp.serveSpeechToSpeech req processingTime timestamp).errorMsg =
          some "Missing required parameters: audio, model, or language") := by
  obtain ⟨a, ha⟩ := Option.isSome_iff_exists.mp haudio
  simp only [List.mem_cons, List.not_mem_nil, or_false, not_or] at hnot
  obtain ⟨hm1, hm2, hm3⟩ := hnot
  by_cases hm0 : m = ""
  · subst hm0
    have hcond : (req.audio.isNone || SpeechApp.jsFalsyStr req.model ||
        SpeechApp.jsFalsyStr req.language) = true := by
      simp [hmodel, SpeechApp.jsFalsyStr]
    simp [SpeechApp.serveSpeechToSpeech, hcond]
  · have hjm : SpeechApp.jsFalsyStr (some m) = false := by
      simp [SpeechApp.jsFalsyStr, hm0]
    simp [SpeechApp.serveSpeechToSpeech, hmodel, ha, hjm, hlang, hm0, hm1,
      hm2, hm3]

/-- Witness for C5: the unknown model name `gpt` is rejected with the
`Unsupported model:` message and no backend call. -/
theorem SpeechApp.unsupported_model_rejected_witness :
    (SpeechApp.serveSpeechToSpeech
          { audio := some "audio", model := some "gpt", language := some "en" }
          7 3).success = false ∧
      (SpeechApp.serveSpeechToSpeech
          { audio := some "audio", model := some "gpt", language := some "en" }
          7 3).status = 500 ∧
      (SpeechApp.serveSpeechToSpeech
          { audio := some "audio", model := some "gpt", language := some "en" }
          7 3).invoked = [] ∧
      ("gpt" ≠ "" →
        (SpeechApp.serveSpeechToSpeech
            { audio := some "audio", model := some "gpt",
              language := some "en" } 7 3).errorMsg =
          some ("Unsupported model: " ++ "gpt")) ∧
      ("gpt" = "" →
        (SpeechApp.serveSpeechToSpeech
            { audio := some "audio", model := some "gpt",
              language := some "en" } 7 3).errorMsg =
          some "Missing required parameters: audio, model, or language") :=
  SpeechApp.unsupported_model_rejected _ 7 3 "gpt" rfl rfl rfl (by decide)

/-- Claim C7: for every language code outside {en, ta, es, fr, de}, each of
the three backends returns its English transcript — the default-language
fallback — together with a non-empty mock audio URL. -/
theorem SpeechApp.backends_fall_back_to_english (audioBase64 language : String)
    (timestamp : ℕ) (h : language ∉ ["en", "ta", "es", "fr", "de"]) :
    (SpeechApp.processMoshiModel audioBase64 language timestamp).1 =
        SpeechApp.moshiEn ∧
      (SpeechApp.processMoshiModel audioBase64 language timestamp).2 ≠ "" ∧
      (SpeechApp.processUltravoxModel audioBase64 language timestamp).1 =
        SpeechApp.ultravoxEn ∧
      (SpeechApp.processUltravoxModel audioBase64 language timestamp).2 ≠ "" ∧
      (SpeechApp.processSpiritLMModel audioBase64 language timestamp).1 =
        SpeechApp.spiritLMEn ∧
      (SpeechApp.processSpiritLMModel audioBase64 language timestamp).2 ≠
        "" := by
  simp only [List.mem_cons, List.not_mem_nil, or_false, not_or] at h
  obtain ⟨h1, h2, h3, h4, h5⟩ := h
  refine ⟨?_, SpeechApp.generateMockAudioUrl_ne_empty _ _ _, ?_,
    SpeechApp.generateMockAudioUrl_ne_empty _ _ _, ?_,
    SpeechApp.generateMockAudioUrl_ne_empty _ _ _⟩ <;>
    simp [SpeechApp.processMoshiModel, SpeechApp.processUltravoxModel,
      SpeechApp.processSpiritLMModel, SpeechApp.moshiGreeting,
      SpeechApp.ultravoxResponse, SpeechApp.spiritLMResponse, h1, h2, h3, h4,
      h5]

/-- Witness for C7: the unsupported language code `xx` falls back to
English for all three backends. -/
theorem SpeechApp.backends_fall_back_to_english_witness :
    (SpeechApp.processMoshiModel "audio" "xx" 3).1 = SpeechApp.moshiEn ∧
      (SpeechApp.processMoshiModel "audio" "xx" 3).2 ≠ "" ∧
      (SpeechApp.processUltravoxModel "audio" "xx" 3).1 =
        SpeechApp.ultravoxEn ∧
      (SpeechApp.processUltravoxModel "audio" "xx" 3).2 ≠ "" ∧
      (SpeechApp.processSpiritLMModel "audio" "xx" 3).1 =
        SpeechApp.spiritLMEn ∧
      (SpeechApp.processSpiritLMModel "audio" "xx" 3).2 ≠ "" :=
  SpeechApp.backends_fall_back_to_english "audio" "xx" 3 (by decide)
